import Mathlib

/-
Verification of the chat-gateway streaming layer:
shallow embedding of the provider routing, evidence retrieval and merging,
the SSE stream generator, the General-adapter line parser, the web-search
cache, the research-adapter reference synthesis and tone normalization,
and the socket-to-generator bridge poll loop.

Python strings are modelled as Lean String values; the Python string
primitives used by the source (strip, lower, startswith, slicing, the
substring operator) are re-implemented below over the character list so
that every definition evaluates inside the kernel.  Python floats that
the claims never compare at fractional precision (similarity scores) are
modelled as scaled integers.  Calls into external collaborators (the
json module, urllib, datetime, the HTTP client, the database) are passed
in as explicit oracle arguments, never hard-coded.
-/

namespace Gateway

-- ===== Python string primitives =====

/-- Python s.strip(): remove leading and trailing whitespace. -/
def pyStrip (s : String) : String :=
  String.mk (((s.toList.dropWhile Char.isWhitespace).reverse.dropWhile Char.isWhitespace).reverse)

/-- Python s.lower(): ASCII lowercasing (the only case mapping the source relies on). -/
def pyLower (s : String) : String :=
  String.mk (s.toList.map Char.toLower)

/-- Python s.startswith(pre). -/
def pyStartsWith (s pre : String) : Bool :=
  decide (pre.toList <+: s.toList)

/-- Python slicing s[n:] by characters. -/
def pyDrop (s : String) (n : Nat) : String :=
  String.mk (s.toList.drop n)

/-- Python substring test: needle in hay. -/
def isSub (needle hay : String) : Bool :=
  decide (needle.toList <:+: hay.toList)

/-- Python s.rstrip(): remove trailing whitespace. -/
def pyRstrip (s : String) : String :=
  String.mk ((s.toList.reverse.dropWhile Char.isWhitespace).reverse)

/-- Python sep.join(parts). -/
def joinSep (sep : String) : List String → String
| [] => ""
| [x] => x
| x :: xs => x ++ sep ++ joinSep sep xs

/-- Association-list lookup modelling a Python dict read (first binding wins). -/
def alookup {β : Type} (k : String) : List (String × β) → Option β
| [] => none
| (a, b) :: rest => if a = k then some b else alookup k rest

-- ===== SSE frame model (agent_chat_bp.generate) =====

/-- The frame types the /chat/stream generator emits. -/
inductive Frame
| start
| evidence
| chunk
| done
| error
deriving DecidableEq, Repr

/--
The recognized wire shapes of one parsed provider line in the default-LLM
streaming branch of generate: OpenAI delta, the DashScope output variants,
and the bare text shape; other stands for a JSON object matching none of
the recognized shapes.  Each constructor carries the content string the
parse extracts (possibly empty, since missing keys default to the empty
string in the source).
-/
inductive Wire
| openaiDelta (content : String)
| dashscopeChoiceDelta (content : String)
| dashscopeChoiceMessage (content : String)
| dashscopeChoiceText (content : String)
| dashscopeOutputText (content : String)
| plainText (content : String)
| other
deriving DecidableEq, Repr

/-- The content string the multi-shape parse extracts from one parsed line. -/
def extractContent : Wire → String
| Wire.openaiDelta c => c
| Wire.dashscopeChoiceDelta c => c
| Wire.dashscopeChoiceMessage c => c
| Wire.dashscopeChoiceText c => c
| Wire.dashscopeOutputText c => c
| Wire.plainText c => c
| Wire.other => ""

/-- What the loop body does with one line: skip it, break, or emit a chunk. -/
inductive LineAction
| skip
| stop
| emit (content : String)
deriving DecidableEq, Repr

/-- The payload of a line after removing the SSE data label prefix, if present. -/
def linePayload (line : String) : String :=
  if pyStartsWith line "data: " then pyDrop line 6 else line

/--
One iteration of the default-LLM streaming loop of generate
(agent_chat_bp.py lines 716 to 779).  The oracle p models json.loads on
the payload: none is a JSON decode failure, some w the parsed object
classified into its recognized wire shape.
-/
def lineStep (p : String → Option Wire) (line : String) : LineAction :=
  if line = "" then LineAction.skip
  else if pyStrip line = "" ∨ pyStartsWith line ":" = true then LineAction.skip
  else
    let s := linePayload line
    if pyStrip s = "[DONE]" ∨ pyStrip s = "data:[DONE]" then LineAction.stop
    else
      match p s with
      | none => LineAction.skip
      | some w => if extractContent w = "" then LineAction.skip else LineAction.emit (extractContent w)

/-- Result of running the streaming loop: chunk frames emitted, accumulated
ai content, and whether the loop exited through break. -/
structure LoopResult where
  chunks : Nat
  content : String
  stopped : Bool
deriving DecidableEq, Repr

/-- The streaming loop of generate folded over the provider lines,
threading the accumulated ai content. -/
def runLoop (p : String → Option Wire) : List String → String → LoopResult
| [], acc => ⟨0, acc, false⟩
| l :: ls, acc =>
  match lineStep p l with
  | LineAction.stop => ⟨0, acc, true⟩
  | LineAction.skip => runLoop p ls acc
  | LineAction.emit c =>
    let r := runLoop p ls (acc ++ c)
    ⟨r.chunks + 1, r.content, r.stopped⟩

/--
The frame-type sequence generate emits on its default-LLM branch
(agent_chat_bp.py lines 643 to 796): a start frame, then an evidence
frame (emitted both when the list is nonempty and when it is empty, by
the two branches at lines 646 to 649), then the chunk frames of the
loop, then the terminal section: if the line iteration raised (modelled
by raises, reachable only when the loop did not break) a single error
frame; otherwise a done frame, followed by an error frame when the
accumulated content is empty (lines 781 to 792).
-/
def generateFrames (p : String → Option Wire) (lines : List String) (raises : Bool) : List Frame :=
  let r := runLoop p lines ""
  Frame.start :: Frame.evidence ::
    (List.replicate r.chunks Frame.chunk ++
      (if raises = true ∧ r.stopped = false then [Frame.error]
       else if r.content = "" then [Frame.done, Frame.error]
       else [Frame.done]))

-- ===== Task routing (detect_task_type, chat, _call_llm_api) =====

/-- The research intent patterns of detect_task_type. -/
def research_patterns : List String :=
  ["研究一下", "研究", "调研", "调查报告", "分析报告", "研究报告",
   "research", "investigate", "study", "analysis report"]

/-- The dataset-context keywords consulted inside the analysis branch. -/
def data_context_keywords : List String :=
  ["数据", "data", "表格", "table", "csv", "excel"]

/-- The polite-chat words that suppress the analysis-to-research route. -/
def chat_exclusion_words : List String :=
  ["帮我", "请", "可以", "能", "help", "please", "can"]

/-- The data-analysis keywords of detect_task_type. -/
def data_keywords : List String :=
  ["数据", "表格", "图表", "可视化", "csv", "excel", "数据分析", "数据处理",
   "数据统计", "数据计算", "数据挖掘", "数据科学", "数据探索",
   "data", "table", "chart", "visualization", "analyze data", "data analysis",
   "data processing", "data science", "data exploration", "statistics", "statistical"]

/--
detect_task_type (gpt_researcher_adapter.py lines 755 to 813): lowercase
the message, return research on any research pattern; inside the
analysis branch return data when a dataset-context keyword is present,
research when no polite-chat word is present, otherwise fall through to
the data keyword scan; default chat.
-/
def detect_task_type (userMessage : String) : String :=
  let m := pyLower userMessage
  if research_patterns.any (fun pat => isSub pat m) then "research"
  else if (isSub "分析" m || isSub "analyze" m) && data_context_keywords.any (fun k => isSub k m) then "data"
  else if (isSub "分析" m || isSub "analyze" m) && !(chat_exclusion_words.any (fun w => isSub w m)) then "research"
  else if data_keywords.any (fun k => isSub k m) then "data"
  else "chat"

/-- The three backend completion providers a request can be routed to. -/
inductive Provider
| gptResearcher
| deepanalyze
| defaultLLM
deriving DecidableEq, Repr

/-- The force_provider value the chat endpoints derive from the request
task_type (agent_chat_bp.py lines 488 to 502 and 605 to 623). -/
def force_provider_of (taskType : String) : Option String :=
  if taskType = "research" then some "gpt-researcher"
  else if taskType = "data" then some "deepanalyze"
  else if taskType = "chat" then some "qwen"
  else none

/--
The provider _call_llm_api selects (agent_chat_bp.py lines 282 to 369):
the gpt-researcher and deepanalyze force values are honored first; any
other force value, including qwen, falls into the auto-routing block,
which consults detect_task_type when auto routing is enabled, at least
one special adapter is enabled, and the user message is nonempty.
-/
def call_llm_api_provider (autoRoute useGpt useDeep : Bool)
    (forceProvider : Option String) (userMessage : String) : Provider :=
  if forceProvider = some "gpt-researcher" then Provider.gptResearcher
  else if forceProvider = some "deepanalyze" then Provider.deepanalyze
  else if autoRoute && (useGpt || useDeep) && !(userMessage = "") then
    let t := detect_task_type userMessage
    if t = "research" && useGpt then Provider.gptResearcher
    else if t = "data" && useDeep then Provider.deepanalyze
    else Provider.defaultLLM
  else Provider.defaultLLM

-- ===== Evidence retrieval and merging (_build_retrieval_messages, web_search) =====

/-- One result of the local semantic retrieval (run_semantic_retrieval).
The source field models the Python item source falling back to
source_name; similarity scores are modelled as scaled integers. -/
structure RagItem where
  id : Option String
  title : String
  summary : String
  url : String
  published_at : String
  source : String
  similarity : Option Int
deriving DecidableEq, Repr

/-- One normalized web-search result (web_search._normalize_result output
shape).  Missing values are the empty string; scores are scaled integers,
none when the provider sent no score. -/
structure WebResult where
  title : String
  url : String
  snippet : String
  publishedAt : String
  source : String
  score : Option Int
deriving DecidableEq, Repr

/-- One item of the used_evidence list a response carries. -/
structure Evidence where
  id : Option String
  title : String
  summary : String
  url : String
  published_at : String
  source : String
  similarity : Option Int
  origin : String
deriving DecidableEq, Repr

/-- The dedup key of a web result: the url when nonempty, else the title
(web_search.py line 164). -/
def keyOf (w : WebResult) : String :=
  if w.url ≠ "" then w.url else w.title

/-- The dedup key of an assembled evidence item: url when nonempty, else title. -/
def evKey (e : Evidence) : String :=
  if e.url ≠ "" then e.url else e.title

/-- web_search._dedupe_results, threading the seen key set: an item whose
key is empty or already seen is dropped, first occurrences are kept. -/
def dedupeAux (seen : List String) : List WebResult → List WebResult
| [] => []
| item :: rest =>
  let key := keyOf item
  if key = "" ∨ key ∈ seen then dedupeAux seen rest
  else item :: dedupeAux (key :: seen) rest

/-- web_search._dedupe_results (lines 160 to 169). -/
def dedupe_results (results : List WebResult) : List WebResult :=
  dedupeAux [] results

/-- The evidence shape of one local retrieval item (agent_chat_bp.py lines 198 to 212). -/
def ragToEvidence (r : RagItem) : Evidence :=
  ⟨r.id, r.title, r.summary, r.url, r.published_at, r.source, r.similarity, "rag"⟩

/-- The evidence shape of one web result (agent_chat_bp.py lines 213 to 228). -/
def webToEvidence (w : WebResult) : Evidence :=
  ⟨none, w.title, w.snippet, w.url, w.publishedAt, w.source, w.score, "web"⟩

/-- The used_evidence list _build_retrieval_messages assembles: the local
items, each tagged rag, followed by the web items, each tagged web; no
cross-origin deduplication is applied. -/
def buildUsedEvidence (ragResults : List RagItem) (webResults : List WebResult) : List Evidence :=
  ragResults.map ragToEvidence ++ webResults.map webToEvidence

/-- The auto-trigger keyword set of the local retrieval. -/
def RAG_KEYWORDS : List String :=
  ["新闻", "事件", "发布", "公告", "动态", "发生", "最近", "最新", "有哪些", "变化", "更新"]

/-- The auto-trigger keyword set of the web search. -/
def WEB_SEARCH_KEYWORDS : List String :=
  ["最新", "最近", "新闻", "政策", "发布", "进展", "研究", "报道", "公告", "行业"]

/-- agent_chat_bp._contains_keyword. -/
def contains_keyword (text : String) (keywords : List String) : Bool :=
  if text = "" then false else keywords.any (fun k => isSub k text)

/--
The retrieval phase of _build_retrieval_messages (agent_chat_bp.py lines
159 to 228): compute the trigger flags, then, when triggered, obtain the
local and web results; either collaborator raising (the Except.error
outcome) is swallowed and leaves that result list empty; the web search
runs only when USE_WEB_SEARCH is set.  The assembled used_evidence list
is the concatenation of the tagged local and web items.
-/
def retrieveUsedEvidence (userMessage : String) (useRag useWebSearchFlag useWebSearchEnv : Bool)
    (ragOutcome : Except Unit (List RagItem)) (webOutcome : Except Unit (List WebResult)) :
    List Evidence :=
  let ragTriggered := useRag || contains_keyword userMessage RAG_KEYWORDS
  let webTriggered := useWebSearchFlag || contains_keyword userMessage WEB_SEARCH_KEYWORDS
  let combinedTriggered := ragTriggered || webTriggered
  let ragResults := if combinedTriggered then
      (match ragOutcome with | Except.ok l => l | Except.error _ => []) else []
  let webResults := if combinedTriggered && useWebSearchEnv then
      (match webOutcome with | Except.ok l => l | Except.error _ => []) else []
  buildUsedEvidence ragResults webResults

-- ===== Tone normalization (gpt_researcher_adapter._normalize_tone) =====

/-- The tone alias table: lowercase alias to Tone enumeration name
(gpt_researcher_adapter.py lines 75 to 93). -/
def tone_map : List (String × String) :=
  [("informative", "Informative"), ("objective", "Objective"), ("formal", "Formal"),
   ("analytical", "Analytical"), ("persuasive", "Persuasive"), ("explanatory", "Explanatory"),
   ("descriptive", "Descriptive"), ("critical", "Critical"), ("comparative", "Comparative"),
   ("speculative", "Speculative"), ("reflective", "Reflective"), ("narrative", "Narrative"),
   ("humorous", "Humorous"), ("optimistic", "Optimistic"), ("pessimistic", "Pessimistic"),
   ("simple", "Simple"), ("casual", "Casual")]

/-- The canonical Tone enumeration names (the values of the alias table). -/
def canonical_tones : List String :=
  tone_map.map Prod.snd

/--
gpt_researcher_adapter._normalize_tone (lines 72 to 106), instrumented
with the number of warnings the call logs: a tone that already is a
canonical enumeration name is returned unchanged; otherwise the
lowercased tone is looked up in the alias table; an unrecognized tone
yields the default Informative and logs exactly one warning.
-/
def normalize_tone (tone : String) : String × Nat :=
  if tone ∈ canonical_tones then (tone, 0)
  else
    match alookup (pyLower tone) tone_map with
    | some v => (v, 0)
    | none => ("Informative", 1)

/-- The string returned by _normalize_tone (the warning is only logged). -/
def normalize_tone_str (tone : String) : String :=
  (normalize_tone tone).1

-- ===== Reference synthesis (_convert_report_response_to_openai_format) =====

/-- One numbered reference line (the f-string at lines 176 and 183). -/
def ref_entry (n : Nat) (url : String) : String :=
  "[" ++ toString n ++ "] " ++ url

/-- The reference accumulation loop: urls are kept when nonempty and not
yet seen, numbered by the running count of kept references. -/
def buildRefsAux (seen : List String) (count : Nat) : List String → List String
| [] => []
| u :: us =>
  if u ≠ "" ∧ u ∉ seen then
    ref_entry (count + 1) u :: buildRefsAux (u :: seen) (count + 1) us
  else buildRefsAux seen count us

/-- The reference list synthesized from the source urls, falling back to
the visited urls when the source urls yield no reference (lines 169 to 183). -/
def build_refs (sourceUrls visitedUrls : List String) : List String :=
  let refs := buildRefsAux [] 0 sourceUrls
  if refs = [] ∧ visitedUrls ≠ [] then buildRefsAux [] 0 visitedUrls else refs

/-- The header inserted before the synthesized reference section. -/
def refBlockHeader : String := "\n\n## 参考文献\n\n"

/--
The reference-appending transformation of
_convert_report_response_to_openai_format (lines 162 to 187): when
source urls are present and the report does not already contain a
reference section, append the numbered, first-seen-deduplicated url
list under the reference header; otherwise return the report unchanged.
-/
def synthesize_references (sourceUrls visitedUrls : List String) (reportContent : String) : String :=
  if sourceUrls ≠ [] ∧ isSub "## 参考文献" reportContent = false ∧ isSub "参考文献" reportContent = false then
    if build_refs sourceUrls visitedUrls ≠ [] then
      pyRstrip reportContent ++ refBlockHeader ++ joinSep "\n" (build_refs sourceUrls visitedUrls)
    else reportContent
  else reportContent

-- ===== Socket-to-generator bridge (_stream_with_websocket_progress) =====

/-- What one read of the error channel can deliver: the distinguished
fallback-required marker, or a real error that is re-raised. -/
inductive ErrSig
| fallbackMarker
| realError
deriving DecidableEq, Repr

/-- What the consumer observes on the three channels during one poll
iteration: at most one error value, the number of drained progress
items, and at most one result value. -/
structure IterInput where
  err : Option ErrSig
  progressCount : Nat
  result : Option String
deriving DecidableEq, Repr

/-- How the poll loop exits. -/
inductive PollExit
| raised
| marker
| result (content : String)
| timedOut
deriving DecidableEq, Repr

/-- Outcome of the poll loop: the exit kind, the iteration index at exit,
and the number of zero-content driver chunks yielded for progress. -/
structure PollResult where
  exit : PollExit
  iters : Nat
  driverYields : Nat
deriving DecidableEq, Repr

/--
The consumer poll loop of _stream_with_websocket_progress
(gpt_researcher_adapter.py lines 543 to 607).  Real time is abstracted
to ticks: every iteration ends in a fixed sleep, so the wall-clock guard
admits at most one iteration per tick and the fuel argument is the
number of ticks remaining until the global timeout.  Each iteration
first reads the error channel (the fallback marker breaks, a real error
is raised), then drains the progress items and yields one zero-content
driver chunk when any arrived, then reads the result channel and breaks
when it is populated; heartbeats and progress forwarding only invoke the
progress callback and do not affect control flow.
-/
def pollLoop (sched : Nat → IterInput) : Nat → Nat → PollResult
| 0, n => ⟨PollExit.timedOut, n, 0⟩
| fuel + 1, n =>
  let i := sched n
  match i.err with
  | some ErrSig.fallbackMarker => ⟨PollExit.marker, n, 0⟩
  | some ErrSig.realError => ⟨PollExit.raised, n, 0⟩
  | none =>
    match i.result with
    | some s => ⟨PollExit.result s, n, if i.progressCount > 0 then 1 else 0⟩
    | none =>
      let r := pollLoop sched fuel (n + 1)
      ⟨r.exit, r.iters, (if i.progressCount > 0 then 1 else 0) + r.driverYields⟩

/-- The terminal state of the bridge consumer. -/
inductive Terminal
| content (text : String)
| error
deriving DecidableEq, Repr

/--
The bridge consumer end to end (lines 543 to 622): run the poll loop;
a raised error escapes as the error terminal; a marker break or a
timeout attempts one short-grace read of the result channel and, when
that is empty, falls back to the synchronous report call whose content
becomes the terminal content.
-/
def bridgeOutcome (sched : Nat → IterInput) (timeoutTicks : Nat)
    (graceResult : Option String) (fallbackContent : String) : Terminal :=
  match (pollLoop sched timeoutTicks 0).exit with
  | PollExit.raised => Terminal.error
  | PollExit.result s => Terminal.content s
  | PollExit.marker =>
    (match graceResult with
     | some s => Terminal.content s
     | none => Terminal.content fallbackContent)
  | PollExit.timedOut =>
    (match graceResult with
     | some s => Terminal.content s
     | none => Terminal.content fallbackContent)

-- ===== Web search cache and control flow (web_search.search_web) =====

/-- One entry of the process-wide in-memory cache: the cached results and
the absolute expiry tick. -/
structure CacheEntry where
  data : List WebResult
  expiresAt : Nat
deriving DecidableEq, Repr

/-- The process-wide in-memory cache keyed by the cache key string. -/
abbrev Cache := List (String × CacheEntry)

/-- web_search._cache_get: a missing key or an expired entry yields
nothing, and an expired entry is popped from the cache. -/
def cache_get (now : Nat) (cache : Cache) (key : String) :
    Option (List WebResult) × Cache :=
  match alookup key cache with
  | none => (none, cache)
  | some entry =>
    if entry.expiresAt ≤ now then (none, cache.filter (fun kv => kv.1 ≠ key))
    else (some entry.data, cache)

/-- web_search._cache_set: store the data under the key with the ttl
added to the current tick, replacing any previous binding. -/
def cache_set (now : Nat) (cache : Cache) (key : String)
    (data : List WebResult) (ttlSeconds : Nat) : Cache :=
  (key, ⟨data, now + ttlSeconds⟩) :: cache.filter (fun kv => kv.1 ≠ key)

/-- One raw result of the external search API before normalization. -/
structure RawResult where
  title : String
  url : String
  content : String
  snippet : String
  published : String
  source : String
  score : Option Int
deriving DecidableEq, Repr

/-- A database cache row as _db_get_cache returns it: the stored
results and the parsed expiry tick (none when the stored timestamp does
not parse). -/
structure DbCacheRow where
  results : List WebResult
  expiresAt : Option Nat
deriving DecidableEq, Repr

/-- The external collaborators of search_web, passed as oracles: the
current tick, the database cache row the expiry-filtered query returns
for this key (none on miss or database error), the configured API key,
the search API response (error models a raised request failure), the
urllib netloc extraction and the datetime ISO parsing. -/
structure WebSearchEnv where
  now : Nat
  dbRow : Option DbCacheRow
  apiKey : String
  apiResponse : Except Unit (List RawResult)
  netloc : String → String
  isoToDate : String → Option String

/-- web_search._normalize_date: empty values yield nothing; a value the
datetime oracle parses yields its date part; otherwise the first ten
characters when the text is that long. -/
def normalize_date (isoToDate : String → Option String) (value : String) : Option String :=
  if value = "" then none
  else
    let text := pyStrip value
    if text = "" then none
    else
      match isoToDate text with
      | some d => some d
      | none => if text.length ≥ 10 then some (String.mk (text.toList.take 10)) else none

/-- Python text.split() grouping: maximal whitespace-free runs. -/
def splitWsAux : List Char → List Char → List (List Char)
| [], acc => if acc = [] then [] else [acc.reverse]
| c :: cs, acc =>
  if c.isWhitespace then
    (if acc = [] then splitWsAux cs [] else acc.reverse :: splitWsAux cs [])
  else splitWsAux cs (c :: acc)

/-- web_search._truncate: collapse whitespace runs to single spaces, then
cut at the limit with a trailing ellipsis. -/
def truncate (text : String) (limit : Nat) : String :=
  if text = "" then ""
  else
    let cleaned := joinSep " " ((splitWsAux text.toList []).map String.mk)
    if cleaned.length ≤ limit then cleaned
    else pyRstrip (String.mk (cleaned.toList.take limit)) ++ "..."

/-- web_search._extract_source via the urllib netloc oracle. -/
def extract_source (netloc : String → String) (url : String) : String :=
  if url = "" then "" else netloc url

/-- web_search._normalize_result (lines 138 to 157). -/
def normalize_result (env : WebSearchEnv) (raw : RawResult) : WebResult :=
  let title := pyStrip raw.title
  let url := pyStrip raw.url
  let snippet := pyStrip (if raw.content ≠ "" then raw.content else raw.snippet)
  let publishedAt := (normalize_date env.isoToDate raw.published).getD ""
  let source := if pyStrip raw.source ≠ "" then pyStrip raw.source else extract_source env.netloc url
  ⟨title, url, truncate snippet 260, publishedAt, source, raw.score⟩

/-- The score filter applied when a positive minimum score is configured:
results without a score are dropped, scored results must reach the
minimum (the defensive keep-on-conversion-error branch is unreachable
with typed scores). -/
def filterByScore (minScore : Int) (results : List WebResult) : List WebResult :=
  if minScore > 0 then
    results.filter (fun it => match it.score with
      | some s => decide (s ≥ minScore)
      | none => false)
  else results

/-- The externally visible side effects of one search_web call, in order. -/
inductive Eff
| cacheLookup
| dbLookup
| apiCall
| cacheStore
| dbStore
deriving DecidableEq, Repr

/--
web_search.search_web (lines 172 to 241) as a state transformer over the
in-memory cache, also returning the ordered effect trace: a blank query
returns the empty list before touching anything; then the in-memory
cache, then the database cache (which refreshes the in-memory cache with
the remaining ttl, at least one second), then the external API whose
normalized, url-and-title-filtered, score-filtered, deduplicated results
are stored in both caches; a missing API key or a failed API request
raises.
-/
def search_web (env : WebSearchEnv) (cache : Cache) (query : String)
    (maxResults : Nat) (minScore : Int) (cacheTtlSeconds : Nat) :
    Except Unit (List WebResult) × Cache × List Eff :=
  let q := pyStrip query
  if q = "" then (Except.ok [], cache, [])
  else
    let cacheKey := toString maxResults ++ ":" ++ toString minScore ++ ":" ++ q
    match cache_get env.now cache cacheKey with
    | (some cachedData, cacheAfter) => (Except.ok cachedData, cacheAfter, [Eff.cacheLookup])
    | (none, cacheAfter) =>
      match env.dbRow with
      | some row =>
        let ttl := match row.expiresAt with
          | some t => max 1 (t - env.now)
          | none => cacheTtlSeconds
        (Except.ok row.results, cache_set env.now cacheAfter cacheKey row.results ttl,
         [Eff.cacheLookup, Eff.dbLookup, Eff.cacheStore])
      | none =>
        if pyStrip env.apiKey = "" then (Except.error (), cacheAfter, [Eff.cacheLookup, Eff.dbLookup])
        else
          match env.apiResponse with
          | Except.error _ => (Except.error (), cacheAfter, [Eff.cacheLookup, Eff.dbLookup, Eff.apiCall])
          | Except.ok rawResults =>
            let normalized := (rawResults.map (normalize_result env)).filter
              (fun it => it.url ≠ "" && it.title ≠ "")
            let deduped := dedupe_results (filterByScore minScore normalized)
            (Except.ok deduped, cache_set env.now cacheAfter cacheKey deduped cacheTtlSeconds,
             [Eff.cacheLookup, Eff.dbLookup, Eff.apiCall, Eff.cacheStore, Eff.dbStore])

-- ===== Concrete sample inputs used by counterexamples and witnesses =====

/-- A local retrieval item whose url collides with a web result. -/
def ragItemU : RagItem :=
  ⟨none, "Shared article", "local summary", "https://example.com/a", "2024-01-01", "local-db", some 90⟩

/-- A web result sharing its url with the local item above. -/
def webItemU : WebResult :=
  ⟨"Shared article on the web", "https://example.com/a", "web snippet", "2024-01-02", "example.com", some 80⟩

/-- A json.loads oracle under which no line parses. -/
def parseNone : String → Option Wire := fun _ => none

/-- A json.loads oracle delivering one OpenAI-shaped delta for the test line. -/
def parseHello : String → Option Wire :=
  fun s => if s = "x" then some (Wire.openaiDelta "hello") else none

/-- A channel schedule on which the background thread stays silent. -/
def silentSched : Nat → IterInput := fun _ => ⟨none, 0, none⟩

/-- A search environment in which every collaborator is at its idle default. -/
def idleWebEnv : WebSearchEnv :=
  ⟨0, none, "", Except.error (), fun _ => "", fun _ => none⟩

-- ===== Helper lemmas =====

/-- A value delivered by an association-list lookup is among the stored values. -/
theorem alookup_mem_snd {β : Type} (k : String) :
    ∀ (l : List (String × β)) (v : β), alookup k l = some v → v ∈ l.map Prod.snd := by
  intro l
  induction l with
  | nil => intro v h; simp [alookup] at h
  | cons p rest ih =>
    intro v h
    obtain ⟨a, b⟩ := p
    simp only [alookup] at h
    split at h
    · simp only [Option.some.injEq] at h
      simp [h]
    · simpa using Or.inr (ih v h)

/-- String append concatenates the character lists. -/
theorem toList_append (s t : String) : (s ++ t).toList = s.toList ++ t.toList := by
  cases s; cases t; rfl

/-- A needle contained in the reference header is contained in any string
that embeds the header between two others. -/
theorem isSub_append_middle (n x y : String) (h : n.toList <:+: refBlockHeader.toList) :
    isSub n (x ++ refBlockHeader ++ y) = true := by
  unfold isSub
  rw [decide_eq_true_eq]
  have h2 : refBlockHeader.toList <:+: (x ++ refBlockHeader ++ y).toList := by
    rw [toList_append, toList_append]
    exact List.infix_append x.toList refBlockHeader.toList y.toList
  exact h.trans h2

/-- The dedup accumulation keeps only items whose key is nonempty and
outside the seen set, and the kept keys are pairwise distinct. -/
theorem dedupeAux_sound (l : List WebResult) :
    ∀ seen : List String,
      (∀ w ∈ dedupeAux seen l, keyOf w ∉ seen ∧ keyOf w ≠ "") ∧
      ((dedupeAux seen l).map keyOf).Nodup := by
  induction l with
  | nil => intro seen; simp [dedupeAux]
  | cons item rest ih =>
    intro seen
    by_cases hcond : keyOf item = "" ∨ keyOf item ∈ seen
    · simpa [dedupeAux, hcond] using ih seen
    · push_neg at hcond
      have hneg : ¬(keyOf item = "" ∨ keyOf item ∈ seen) := not_or.mpr ⟨hcond.1, hcond.2⟩
      constructor
      · intro w hw
        simp only [dedupeAux, if_neg hneg] at hw
        rcases List.mem_cons.mp hw with rfl | hw2
        · exact ⟨hcond.2, hcond.1⟩
        · have := (ih (keyOf item :: seen)).1 w hw2
          exact ⟨fun hm => this.1 (List.mem_cons_of_mem _ hm), this.2⟩
      · simp only [dedupeAux, if_neg hneg, List.map_cons]
        refine List.nodup_cons.mpr ⟨?_, (ih (keyOf item :: seen)).2⟩
        intro hmem
        obtain ⟨w, hw, hk⟩ := List.mem_map.mp hmem
        have := (ih (keyOf item :: seen)).1 w hw
        exact this.1 (by rw [hk]; exact List.mem_cons_self _ _)

/-- The poll loop runs at most as many iterations as it has fuel ticks. -/
theorem pollLoop_iters_le (sched : Nat → IterInput) :
    ∀ fuel n : Nat, (pollLoop sched fuel n).iters ≤ n + fuel := by
  intro fuel
  induction fuel with
  | zero => intro n; simp [pollLoop]
  | succ f ih =>
    intro n
    simp only [pollLoop]
    cases h1 : (sched n).err with
    | some e =>
      cases e <;> simp only [h1] <;> exact Nat.le_add_right n (f + 1)
    | none =>
      cases h2 : (sched n).result with
      | some s => simp only [h1, h2]; exact Nat.le_add_right n (f + 1)
      | none =>
        simp only [h1, h2]
        have := ih (n + 1)
        omega

/-- When the result channel never delivers, the poll loop never exits
through the result branch. -/
theorem pollLoop_no_result (sched : Nat → IterInput) (h : ∀ n, (sched n).result = none) :
    ∀ fuel n : Nat, ∀ s, (pollLoop sched fuel n).exit ≠ PollExit.result s := by
  intro fuel
  induction fuel with
  | zero => intro n s; simp [pollLoop]
  | succ f ih =>
    intro n s
    simp only [pollLoop]
    cases h1 : (sched n).err with
    | some e => cases e <;> simp
    | none =>
      rw [h n]
      exact ih (n + 1) s

/-- Every output of the tone normalizer is a canonical enumeration name. -/
theorem normalize_tone_mem_canonical (s : String) :
    (normalize_tone s).1 ∈ canonical_tones := by
  unfold normalize_tone
  by_cases h : s ∈ canonical_tones
  · rw [if_pos h]; exact h
  · rw [if_neg h]
    cases hl : alookup (pyLower s) tone_map with
    | some v => exact alookup_mem_snd _ _ _ hl
    | none => decide

-- ===== Claim theorems =====

/-- C1 counterexample: on a run that yields no content and raises no
exception, the stream generator emits a done frame and then an error
frame: two terminal frames, with a frame following the done frame, so
the claimed frame grammar with exactly one terminal frame fails. -/
theorem stream_two_terminal_frames_cex :
    generateFrames parseNone [] false = [Frame.start, Frame.evidence, Frame.done, Frame.error] ∧
    (generateFrames parseNone [] false).count Frame.done +
      (generateFrames parseNone [] false).count Frame.error = 2 ∧
    (generateFrames parseNone [] false).getLast? ≠ some Frame.done := by decide

/-- C1 (amended): every emitted sequence is a start frame, an evidence
frame, then chunk frames, then a terminal section that is a single done
frame, or a single error frame, or a done frame followed by one error
frame; the done-then-error tail occurs exactly when the run accumulated
no content and no exception was raised. -/
theorem stream_frame_sequence_amended (p : String → Option Wire) (lines : List String) (raises : Bool) :
    ∃ m t, generateFrames p lines raises =
        Frame.start :: Frame.evidence :: (List.replicate m Frame.chunk ++ t) ∧
      (t = [Frame.done] ∨ t = [Frame.error] ∨ t = [Frame.done, Frame.error]) ∧
      (t = [Frame.done, Frame.error] ↔
        (runLoop p lines "").content = "" ∧
          ¬(raises = true ∧ (runLoop p lines "").stopped = false)) := by
  by_cases h1 : raises = true ∧ (runLoop p lines "").stopped = false
  · refine ⟨(runLoop p lines "").chunks, [Frame.error], ?_, Or.inr (Or.inl rfl), ?_⟩
    · simp only [generateFrames]
      rw [if_pos h1]
    · simp [h1]
  · by_cases h2 : (runLoop p lines "").content = ""
    · refine ⟨(runLoop p lines "").chunks, [Frame.done, Frame.error], ?_, Or.inr (Or.inr rfl), ?_⟩
      · simp only [generateFrames]
        rw [if_neg h1, if_pos h2]
      · simp [h1, h2]
    · refine ⟨(runLoop p lines "").chunks, [Frame.done], ?_, Or.inl rfl, ?_⟩
      · simp only [generateFrames]
        rw [if_neg h1, if_neg h2]
      · simp [h2]

/-- C2: the explicit chat override, which the endpoint translates to the
force value qwen, is not honored by the provider selection: with the
default flags and a message containing a research keyword, the keyword
detector is consulted and the request is routed to the research adapter
instead of the default LLM, contradicting the stated contract that the
explicit value forces the named service. -/
theorem chat_override_routes_to_researcher :
    force_provider_of "chat" = some "qwen" ∧
    detect_task_type "please research quantum computing" = "research" ∧
    call_llm_api_provider true true true (force_provider_of "chat")
      "please research quantum computing" = Provider.gptResearcher ∧
    Provider.gptResearcher ≠ Provider.defaultLLM := by decide

/-- C3 counterexample: a local item and a web item sharing the same url
both survive evidence assembly, even when the web list has been passed
through the web dedup, so two items of one response share a dedup key
and the web-origin duplicate is not dropped in favor of the local one. -/
theorem evidence_cross_origin_duplicate_cex :
    (buildUsedEvidence [ragItemU] (dedupe_results [webItemU])).map evKey =
      ["https://example.com/a", "https://example.com/a"] ∧
    ¬ ((buildUsedEvidence [ragItemU] (dedupe_results [webItemU])).map evKey).Nodup ∧
    (buildUsedEvidence [ragItemU] (dedupe_results [webItemU])).map Evidence.origin =
      ["rag", "web"] := by decide

/-- C3 (amended): the dedup invariant holds within the web-origin items
only: the web dedup keeps first occurrences, every kept item has a
nonempty key, and no two kept items share a key; the assembled evidence
list is the plain concatenation of the local items and the web items,
with no cross-origin deduplication, so a local and a web item may share
a key and both are retained. -/
theorem web_evidence_dedup_amended (webResults : List WebResult) (ragResults : List RagItem) :
    ((dedupe_results webResults).map keyOf).Nodup ∧
    (∀ w ∈ dedupe_results webResults, keyOf w ≠ "") ∧
    buildUsedEvidence ragResults (dedupe_results webResults) =
      ragResults.map ragToEvidence ++ (dedupe_results webResults).map webToEvidence := by
  refine ⟨(dedupeAux_sound webResults []).2, ?_, rfl⟩
  intro w hw
  exact ((dedupeAux_sound webResults []).1 w hw).2

/-- C3 witness: the amended dedup property evaluated on a concrete web list. -/
theorem web_evidence_dedup_amended_witness :
    ((dedupe_results [webItemU]).map keyOf).Nodup ∧ keyOf webItemU ≠ "" := by
  have h := web_evidence_dedup_amended [webItemU] []
  exact ⟨h.1, h.2.1 webItemU (by decide)⟩

/-- C4 counterexample: a lowercased end sentinel does not stop the loop:
the line is treated as unparsable and skipped, and the loop keeps
consuming lines until the exact-case sentinel arrives, so the sentinel
match is case-sensitive, not case-insensitive as claimed. -/
theorem sentinel_case_sensitive_cex :
    lineStep parseNone "data: [done]" = LineAction.skip ∧
    lineStep parseNone "data: [done]" ≠ LineAction.stop ∧
    (runLoop parseNone ["data: [done]", "data: [DONE]"] "").stopped = true := by decide

/-- C4 (amended): the loop stops exactly on the case-sensitive end
sentinel, with or without the data label prefix (covering the prefixed,
bare, and unspaced-label spellings); blank lines, comment lines and
unparsable lines are skipped without aborting the stream. -/
theorem sentinel_loop_amended (p : String → Option Wire) (line : String) :
    (pyStrip line = "" → lineStep p line = LineAction.skip) ∧
    (pyStartsWith line ":" = true → lineStep p line = LineAction.skip) ∧
    (pyStrip line ≠ "" → pyStartsWith line ":" = false →
      (pyStrip (linePayload line) = "[DONE]" ∨ pyStrip (linePayload line) = "data:[DONE]") →
      lineStep p line = LineAction.stop) ∧
    (pyStrip line ≠ "" → pyStartsWith line ":" = false →
      pyStrip (linePayload line) ≠ "[DONE]" → pyStrip (linePayload line) ≠ "data:[DONE]" →
      p (linePayload line) = none → lineStep p line = LineAction.skip) := by
  refine ⟨?_, ?_, ?_, ?_⟩
  · intro h
    unfold lineStep
    by_cases he : line = ""
    · rw [if_pos he]
    · rw [if_neg he, if_pos (Or.inl h)]
  · intro h
    unfold lineStep
    by_cases he : line = ""
    · rw [if_pos he]
    · rw [if_neg he, if_pos (Or.inr h)]
  · intro h hc hs
    unfold lineStep
    have he : line ≠ "" := by
      intro e
      exact h (by rw [e]; decide)
    rw [if_neg he, if_neg (by simp [h, hc]), if_pos hs]
  · intro h hc h1 h2 hp
    unfold lineStep
    have he : line ≠ "" := by
      intro e
      exact h (by rw [e]; decide)
    rw [if_neg he, if_neg (by simp [h, hc]), if_neg (by simp [h1, h2])]
    simp [hp]

/-- C4 witness: the amended sentinel rule evaluated on the prefixed
exact-case sentinel line. -/
theorem sentinel_loop_amended_witness :
    lineStep parseNone "data: [DONE]" = LineAction.stop :=
  (sentinel_loop_amended parseNone "data: [DONE]").2.2.1 (by decide) (by decide) (by decide)

/-- C5: appending synthesized references is idempotent: a second
application leaves the report unchanged because the appended section
makes the reference-presence guard fail, and on the source-url list
consisting of a, b, a the synthesized list has exactly the two entries
numbered one and two in first-seen order. -/
theorem references_idempotent (src vis : List String) (report : String)
    (a b : String) (vis2 : List String) (ha : a ≠ "") (hb : b ≠ "") (hab : a ≠ b) :
    synthesize_references src vis (synthesize_references src vis report) =
      synthesize_references src vis report ∧
    build_refs [a, b, a] vis2 = [ref_entry 1 a, ref_entry 2 b] := by
  constructor
  · by_cases hg : src ≠ [] ∧ isSub "## 参考文献" report = false ∧ isSub "参考文献" report = false
    · by_cases hr : build_refs src vis ≠ []
      · have happ : synthesize_references src vis report =
            pyRstrip report ++ refBlockHeader ++ joinSep "\n" (build_refs src vis) := by
          unfold synthesize_references
          rw [if_pos hg, if_pos hr]
        have hsub : isSub "参考文献"
            (pyRstrip report ++ refBlockHeader ++ joinSep "\n" (build_refs src vis)) = true :=
          isSub_append_middle _ _ _ (by decide)
        have hneg : ¬(src ≠ [] ∧
            isSub "## 参考文献" (pyRstrip report ++ refBlockHeader ++ joinSep "\n" (build_refs src vis)) = false ∧
            isSub "参考文献" (pyRstrip report ++ refBlockHeader ++ joinSep "\n" (build_refs src vis)) = false) := by
          intro hcon
          rw [hcon.2.2] at hsub
          exact Bool.false_ne_true hsub
        rw [happ]
        unfold synthesize_references
        rw [if_neg hneg]
      · have hfix : synthesize_references src vis report = report := by
          unfold synthesize_references
          rw [if_pos hg, if_neg hr]
        rw [hfix]
        exact hfix
    · have hfix : synthesize_references src vis report = report := by
        unfold synthesize_references
        rw [if_neg hg]
      rw [hfix]
      exact hfix
  · have hba : b ≠ a := fun e => hab e.symm
    simp [build_refs, buildRefsAux, ha, hb, hba]

/-- C5 witness: idempotence and the duplicate-url example evaluated on
concrete inputs. -/
theorem references_idempotent_witness :
    synthesize_references ["https://example.com/src"] []
        (synthesize_references ["https://example.com/src"] [] "Report body") =
      synthesize_references ["https://example.com/src"] [] "Report body" ∧
    build_refs ["a", "b", "a"] [] = [ref_entry 1 "a", ref_entry 2 "b"] :=
  references_idempotent ["https://example.com/src"] [] "Report body" "a" "b" []
    (by decide) (by decide) (by decide)

/-- C6: when the background socket thread never delivers a result, the
bridge consumer still reaches a terminal state, either the synchronous
fallback content or the error terminal, and the poll loop performs at
most as many iterations as the global timeout allows ticks, so
termination happens within the timeout plus the grace read. -/
theorem bridge_poll_terminates (sched : Nat → IterInput) (timeoutTicks : Nat)
    (fallbackContent : String) (h : ∀ n, (sched n).result = none) :
    (bridgeOutcome sched timeoutTicks none fallbackContent = Terminal.content fallbackContent ∨
      bridgeOutcome sched timeoutTicks none fallbackContent = Terminal.error) ∧
    (pollLoop sched timeoutTicks 0).iters ≤ timeoutTicks := by
  constructor
  · unfold bridgeOutcome
    cases hx : (pollLoop sched timeoutTicks 0).exit with
    | raised => right; rfl
    | marker => left; rfl
    | result s => exact absurd hx (pollLoop_no_result sched h timeoutTicks 0 s)
    | timedOut => left; rfl
  · simpa using pollLoop_iters_le sched timeoutTicks 0

/-- C6 witness: the bridge guarantee on a silent channel schedule. -/
theorem bridge_poll_terminates_witness :
    (bridgeOutcome silentSched 3 none "fallback report" = Terminal.content "fallback report" ∨
      bridgeOutcome silentSched 3 none "fallback report" = Terminal.error) ∧
    (pollLoop silentSched 3 0).iters ≤ 3 :=
  bridge_poll_terminates silentSched 3 "fallback report" (fun _ => rfl)

/-- C7: tone normalization is total and deterministic: a canonical value
is returned unchanged without a warning, a lowercased match in the alias
table yields its unique canonical value without a warning, and any other
input yields the default Informative with exactly one logged warning. -/
theorem tone_normalization_total (t : String) :
    (t ∈ canonical_tones → normalize_tone t = (t, 0)) ∧
    (t ∉ canonical_tones → ∀ c, alookup (pyLower t) tone_map = some c →
      normalize_tone t = (c, 0) ∧ c ∈ canonical_tones) ∧
    (t ∉ canonical_tones → alookup (pyLower t) tone_map = none →
      normalize_tone t = ("Informative", 1)) := by
  refine ⟨?_, ?_, ?_⟩
  · intro h
    unfold normalize_tone
    rw [if_pos h]
  · intro h c hc
    unfold normalize_tone
    rw [if_neg h, hc]
    exact ⟨rfl, alookup_mem_snd _ _ _ hc⟩
  · intro h hc
    unfold normalize_tone
    rw [if_neg h, hc]

/-- C7 witness: an uppercased alias normalizes to its canonical value
with no warning. -/
theorem tone_normalization_total_witness :
    normalize_tone "ANALYTICAL" = ("Analytical", 0) ∧ "Analytical" ∈ canonical_tones :=
  (tone_normalization_total "ANALYTICAL").2.1 (by decide) "Analytical" (by decide)

/-- C8: when the web-search collaborator raises, the retrieval step
swallows the failure: every assembled evidence item is local-origin (the
list is possibly empty, and always a list), and a run whose provider
stream produced content still ends in a done frame. -/
theorem web_failure_degrades_gracefully (userMessage : String)
    (useRag useWebFlag useWebEnv : Bool) (ragOutcome : Except Unit (List RagItem))
    (p : String → Option Wire) (lines : List String)
    (hcontent : (runLoop p lines "").content ≠ "") :
    (∀ e ∈ retrieveUsedEvidence userMessage useRag useWebFlag useWebEnv ragOutcome
        (Except.error ()), e.origin = "rag") ∧
    (generateFrames p lines false).getLast? = some Frame.done := by
  constructor
  · intro e he
    simp only [retrieveUsedEvidence, buildUsedEvidence] at he
    rw [show (if (useRag || contains_keyword userMessage RAG_KEYWORDS ||
          (useWebFlag || contains_keyword userMessage WEB_SEARCH_KEYWORDS)) && useWebEnv then
          (match (Except.error () : Except Unit (List WebResult)) with
           | Except.ok l => l | Except.error _ => []) else []) = ([] : List WebResult)
        from by split <;> rfl] at he
    simp only [List.map_nil, List.append_nil] at he
    split at he
    · obtain ⟨r, _, rfl⟩ := List.mem_map.mp he
      rfl
    · simp at he
  · simp only [generateFrames]
    rw [if_neg (by simp), if_neg hcontent]
    rw [show Frame.start :: Frame.evidence ::
          (List.replicate (runLoop p lines "").chunks Frame.chunk ++ [Frame.done]) =
        (Frame.start :: Frame.evidence :: List.replicate (runLoop p lines "").chunks Frame.chunk)
          ++ [Frame.done] from by simp]
    rw [List.getLast?_append_cons]
    rfl

/-- C8 witness: the graceful-degradation property evaluated on a
concrete request whose web search raises and whose provider emits one
content chunk. -/
theorem web_failure_degrades_gracefully_witness :
    (retrieveUsedEvidence "hello" true true true (Except.ok [ragItemU])
        (Except.error ())).map Evidence.origin = ["rag"] ∧
    (generateFrames parseHello ["x"] false).getLast? = some Frame.done := by
  have h := web_failure_degrades_gracefully "hello" true true true (Except.ok [ragItemU])
    parseHello ["x"] (by decide)
  exact ⟨by decide, h.2⟩

/-- C9: tone normalization is idempotent: every output of the normalizer
is a canonical enumeration name, which the normalizer maps to itself. -/
theorem tone_normalization_idempotent (t : String) :
    normalize_tone_str (normalize_tone_str t) = normalize_tone_str t := by
  have hmem : normalize_tone_str t ∈ canonical_tones := normalize_tone_mem_canonical t
  show (normalize_tone (normalize_tone_str t)).1 = normalize_tone_str t
  unfold normalize_tone
  rw [if_pos hmem]

/-- C10: a blank query short-circuits the web search: the result is the
empty list, the in-memory cache is returned untouched, and the effect
trace is empty, so neither cache nor the external API is consulted and
no cache state is modified. -/
theorem empty_query_returns_nothing (env : WebSearchEnv) (cache : Cache) (query : String)
    (maxResults : Nat) (minScore : Int) (ttl : Nat) (h : pyStrip query = "") :
    search_web env cache query maxResults minScore ttl = (Except.ok [], cache, []) := by
  unfold search_web
  simp [h]

/-- C10 witness: the short-circuit evaluated on a whitespace query
against the idle environment. -/
theorem empty_query_returns_nothing_witness :
    search_web idleWebEnv [] "   " 6 0 1800 = (Except.ok [], [], []) :=
  empty_query_returns_nothing idleWebEnv [] "   " 6 0 1800 (by decide)

end Gateway
